import Mathlib

/-
Verification of the AI_Presenter orchestration core against its
natural-language specification.

The command queue is embedded from the Python sketch in
src/PROJECT_GUIDE.md (section 6, Queue Data Model, lines 339-368) and the
state enumeration from section 7 (lines 377-389).  The display-surface
client, the overlay logic and the audience question form are embedded from
the frontend JavaScript (src/unnamed/part_000 and src/unnamed/part_001).
Operations whose implementation is not part of the repository snapshot
(the interrupt body, the execute hook, goto validation, resume and the
status query) are modelled from the specification and are marked as such
in their doc comments.
-/

set_option autoImplicit false

namespace AIPresenter

/-- Command record, from src/PROJECT_GUIDE.md lines 339-344: a type tag,
a payload map, a timestamp and a priority (0 = normal, 1 = interrupt). -/
structure Command where
  type : String
  payload : List (String × String)
  timestamp : Nat
  priority : Nat
  deriving DecidableEq, Repr

/-- Agent states, from src/PROJECT_GUIDE.md lines 377-389. -/
inductive AgentState
  | IDLE
  | INTRODUCING
  | PRESENTING
  | ASKING
  | WAITING_ANSWER
  | RESPONDING
  | TRANSITIONING
  | QA_MODE
  | OUTRO
  | PAUSED
  | DONE
  deriving DecidableEq, Repr

/-- Snapshot of the agent state and the slide index, taken on pause
(spec section 4.2, PAUSED row). -/
structure AgentSnapshot where
  state : AgentState
  slide : Nat
  deriving DecidableEq, Repr

/-- The engine state: the CommandQueue fields from src/PROJECT_GUIDE.md
lines 346-349 (queue, current_action, is_busy) together with the session
fields the claims mention (agentState, currentSlide, totalSlides,
savedStateOnPause).  The fields done, inflight and arrived are history
variables used only by the specification: done records completed
commands in completion order, inflight records commands handed to the
state machine and not yet completed, arrived records normal commands in
arrival order.  They are written alongside the real operations and are
never read by them. -/
structure EngineState where
  queue : List Command
  current_action : Option Command
  is_busy : Bool
  agentState : AgentState
  currentSlide : Nat
  totalSlides : Nat
  savedStateOnPause : Option AgentSnapshot
  done : List Command
  inflight : List Command
  arrived : List Command
  deriving DecidableEq, Repr

/-- Modelled from the spec: the body of CommandQueue.execute is not shown
in src/PROJECT_GUIDE.md (line 367 only calls it).  Per spec section 4.1,
process_next pops the head into current and hands it to the State
Machine; we record the handed-over command in the inflight history. -/
def execute (cmd : Command) (s : EngineState) : EngineState :=
  { s with current_action := some cmd, inflight := s.inflight ++ [cmd] }

/-- CommandQueue.process_next, from src/PROJECT_GUIDE.md lines 363-367:
if the queue is non-empty, pop the head, set is_busy and execute it. -/
def process_next (s : EngineState) : EngineState :=
  match s.queue with
  | [] => s
  | cmd :: rest => execute cmd { s with queue := rest, is_busy := true }

/-- CommandQueue.on_action_complete, from src/PROJECT_GUIDE.md lines
359-361: set is_busy to false and call process_next.  Note that the code
does not clear current_action.  The history fields move the oldest
in-flight command into done. -/
def on_action_complete (s : EngineState) : EngineState :=
  process_next
    { s with is_busy := false,
             done := s.done ++ s.inflight.take 1,
             inflight := s.inflight.drop 1 }

/-- Modelled from the spec: the body of CommandQueue.interrupt is not
shown in src/PROJECT_GUIDE.md (line 353 only calls it).  Per spec section
4.1: clear current, clear the FIFO only if the kind is stop (pause
preserves the FIFO), transition the engine to PAUSED synchronously; per
section 4.2 the prior AgentState and slide are snapshotted into
savedStateOnPause; per section 5 the in-flight action is cancelled. -/
def interrupt (cmd : Command) (s : EngineState) : EngineState :=
  { s with current_action := none,
           queue := if cmd.type = "stop" then [] else s.queue,
           is_busy := false,
           inflight := [],
           savedStateOnPause := some { state := s.agentState, slide := s.currentSlide },
           agentState := AgentState.PAUSED }

/-- CommandQueue.enqueue, from src/PROJECT_GUIDE.md lines 351-357: an
interrupt-priority command is applied immediately; a normal command is
appended to the FIFO tail and, if the queue is not busy, process_next is
called. -/
def enqueue (cmd : Command) (s : EngineState) : EngineState :=
  if cmd.priority = 1 then
    interrupt cmd s
  else
    let s2 : EngineState :=
      { s with queue := s.queue ++ [cmd], arrived := s.arrived ++ [cmd] }
    if s2.is_busy then s2 else process_next s2

/-- External stimuli of the queue: a command arriving at enqueue, or the
dispatcher signalling that the current action has completed. -/
inductive Event
  | enq (cmd : Command)
  | complete
  deriving DecidableEq, Repr

/-- One scheduling step.  A completion signal arriving while the queue is
not busy is ignored (spec section 7, DoubleCompletion is ignored past the
first signal). -/
def stepE (s : EngineState) (e : Event) : EngineState :=
  match e with
  | Event.enq cmd => enqueue cmd s
  | Event.complete => if s.is_busy then on_action_complete s else s

/-- Initial engine state: empty queue, idle, slide 0 (spec section 3,
PresentationContext lifecycle); totalSlides 15 per
backend/agent/states.py create_initial_state as quoted in
src/unnamed/part_002 line 1695. -/
def initState : EngineState :=
  { queue := []
    current_action := none
    is_busy := false
    agentState := AgentState.IDLE
    currentSlide := 0
    totalSlides := 15
    savedStateOnPause := none
    done := []
    inflight := []
    arrived := [] }

/-- Run a sequence of events from the initial state. -/
def run (tr : List Event) : EngineState :=
  tr.foldl stepE initState

/-- An event is normal when it is not an interrupt-priority enqueue. -/
def normalEvent : Event → Bool
  | Event.enq cmd => cmd.priority == 0
  | Event.complete => true

/-- Modelled from the spec: resume completes PAUSED by restoring
savedStateOnPause (spec section 4.2, PAUSED row, and the diagram at
src/PROJECT_GUIDE.md line 445: resume goes back to the previous state).
The resume handler itself is not part of the repository snapshot. -/
def applyResume (s : EngineState) : EngineState :=
  match s.savedStateOnPause with
  | some snap =>
      { s with agentState := snap.state,
               currentSlide := snap.slide,
               savedStateOnPause := none }
  | none => s

/-- The interrupt-priority pause command (spec section 3: an INTERRUPT
command is only ever pause or stop; src/PROJECT_GUIDE.md line 344:
priority 1 means interrupt). -/
def pauseCmd : Command :=
  { type := "pause", payload := [], timestamp := 0, priority := 1 }

/-- Error raised by an out-of-range goto (spec section 7). -/
inductive SlideError
  | InvalidSlideIndex
  deriving DecidableEq, Repr

/-- Modelled from the spec: the backend goto handler that validates the
index is not part of the repository snapshot (the frontend at
src/unnamed/part_000 lines 83-85 and 148-164 forwards any received index
without validation).  Per spec section 4.2, goto N requires
0 <= N < totalSlides; out-of-range requests fail with InvalidSlideIndex
and leave the state unchanged. -/
def gotoSlide (s : EngineState) (n : Int) : Except SlideError EngineState :=
  if 0 ≤ n ∧ n < (s.totalSlides : Int) then
    Except.ok { s with currentSlide := n.toNat }
  else
    Except.error SlideError.InvalidSlideIndex

/-- The engine state after a goto request: the new state on success, the
old state unchanged on failure. -/
def applyGoto (s : EngineState) (n : Int) : EngineState :=
  match gotoSlide s n with
  | Except.ok t => t
  | Except.error _ => s

/-- The snapshot returned by the status query (spec section 6). -/
structure StatusSnapshot where
  agentState : AgentState
  currentSlide : Nat
  queueDepth : Nat
  currentCommandKind : Option String
  deriving DecidableEq, Repr

/-- Modelled from the spec: the backend status handler is not part of the
repository snapshot (the frontend at src/unnamed/part_000 lines 127-129
only logs the received snapshot).  Per spec section 6, status is a
pull-style query that returns the snapshot and never mutates state. -/
def statusQuery (s : EngineState) : StatusSnapshot × EngineState :=
  ({ agentState := s.agentState,
     currentSlide := s.currentSlide,
     queueDepth := s.queue.length,
     currentCommandKind := Option.map Command.type s.current_action }, s)

/-- The state after one status query. -/
def statusStep (s : EngineState) : EngineState :=
  (statusQuery s).2

/-- Modelled from src/PROJECT_GUIDE.md: the router that runs after a
state completes.  With a non-empty FIFO the head decides the next state
(lines 450-479, decide_next_state over the conditional edges).  With an
empty FIFO: after RESPONDING the agent auto-advances to the next slide
(line 334 of the example scenario: response finishes, agent checks queue,
empty, so auto-advances to next slide; also the diagram at line 425);
QA_MODE keeps waiting for a pick or outro command (lines 429-434); other
states stay in PRESENTING on the current slide. -/
def decide_next_state (c : Command) : AgentState :=
  if c.type = "ask" then AgentState.ASKING
  else if c.type = "qa" then AgentState.QA_MODE
  else if c.type = "outro" then AgentState.OUTRO
  else AgentState.PRESENTING

/-- Router outcome after a state completes: the next agent state and the
slide index (see decide_next_state for sources). -/
def routeAfterComplete (st : AgentState) (slide : Nat) (queue : List Command) :
    AgentState × Nat :=
  match queue with
  | [] =>
    match st with
    | AgentState.RESPONDING => (AgentState.PRESENTING, slide + 1)
    | AgentState.QA_MODE => (AgentState.QA_MODE, slide)
    | _ => (AgentState.PRESENTING, slide)
  | c :: _ => (decide_next_state c, slide)

/-- Outcome of the browser loading and playing a pre-generated audio
file (src/unnamed/part_000, playPreGenAudio).  playsToEnd: the file
loads, plays, and the ended event fires.  playRejected: the play promise
rejects with no media error (for example autoplay is blocked); neither
the error event nor the ended event fires.  loadError: the media
resource fails to load (for example HTTP 404); the element fires its
error event and the pending play promise also rejects, and ended never
fires. -/
inductive AudioOutcome
  | playsToEnd
  | playRejected
  | loadError
  deriving DecidableEq, Repr

/-- Whether the catch handler on the play promise sends audio_ended
(src/unnamed/part_000 lines 177-187): it runs whenever play rejects. -/
def catchSendsEnded : AudioOutcome → Bool
  | AudioOutcome.playsToEnd => false
  | AudioOutcome.playRejected => true
  | AudioOutcome.loadError => true

/-- Whether the error listener on the audio element sends audio_ended
(src/unnamed/part_000 lines 191-198): it runs on a media load error. -/
def errorListenerSendsEnded : AudioOutcome → Bool
  | AudioOutcome.playsToEnd => false
  | AudioOutcome.playRejected => false
  | AudioOutcome.loadError => true

/-- Whether the ended listener sends audio_ended (src/unnamed/part_000
lines 311-316): it runs when playback finishes normally. -/
def endedListenerSendsEnded : AudioOutcome → Bool
  | AudioOutcome.playsToEnd => true
  | AudioOutcome.playRejected => false
  | AudioOutcome.loadError => false

/-- Total number of audio_ended completion signals the presenter client
sends to the backend for one play_audio command, summed over the three
handlers in src/unnamed/part_000 that call sendToBackend with
audio_ended. -/
def audioEndedSignals (o : AudioOutcome) : Nat :=
  (if catchSendsEnded o then 1 else 0)
  + (if errorListenerSendsEnded o then 1 else 0)
  + (if endedListenerSendsEnded o then 1 else 0)

/-- Reconnect delay of the display-surface client, from
src/unnamed/part_000 line 13. -/
def RECONNECT_DELAY : Nat := 3000

/-- Display-surface client connection state (src/unnamed/part_000 lines
31-68): whether the socket is open, the pending reconnect timer delay if
one is scheduled, and the list of message types sent to the backend via
sendToBackend. -/
structure ClientState where
  wsOpen : Bool
  reconnectDelayMs : Option Nat
  outbox : List String
  deriving DecidableEq, Repr

/-- The onclose handler, from src/unnamed/part_000 lines 54-57: it logs
and schedules a reconnect after RECONNECT_DELAY; it sends nothing. -/
def onClose (s : ClientState) : ClientState :=
  { s with wsOpen := false, reconnectDelayMs := some RECONNECT_DELAY }

/-- The onopen handler, from src/unnamed/part_000 lines 40-43: it logs
and clears the reconnect timer; it sends nothing to the backend. -/
def onOpen (s : ClientState) : ClientState :=
  { s with wsOpen := true, reconnectDelayMs := none }

/-- A freshly connected client with an empty outbox. -/
def clientInit : ClientState :=
  { wsOpen := true, reconnectDelayMs := none, outbox := [] }

/-- Overlay-relevant DOM state of the presenter screen
(src/unnamed/part_000): a hidden flag per overlay (the hidden CSS class)
and the displayed texts. -/
structure OverlayState where
  questionHidden : Bool
  responseHidden : Bool
  questionTargetText : String
  questionTextContent : String
  responseTextContent : String
  deriving DecidableEq, Repr

/-- showQuestion, from src/unnamed/part_000 lines 417-422: fill the
question overlay, unhide it, and hide the response overlay. -/
def showQuestion (targetName question : String) (s : OverlayState) : OverlayState :=
  { s with questionTargetText :=
             if targetName = "" then "Question:"
             else "Question for " ++ targetName ++ ":",
           questionTextContent := question,
           questionHidden := false,
           responseHidden := true }

/-- showResponseText, from src/unnamed/part_000 lines 424-428: fill the
response overlay, unhide it, and hide the question overlay. -/
def showResponseText (text : String) (s : OverlayState) : OverlayState :=
  { s with responseTextContent := text,
           responseHidden := false,
           questionHidden := true }

/-- hideOverlays, from src/unnamed/part_000 lines 430-433: hide both
overlays. -/
def hideOverlays (s : OverlayState) : OverlayState :=
  { s with questionHidden := true, responseHidden := true }

/-- The overlay-affecting operations of src/unnamed/part_000: the three
overlay functions, plus the audio entry points that call hideOverlays
(playPreGenAudio line 169, playLiveAudio lines 201-205 and
startStreamingAudio lines 243-246 follow it with showResponseText when a
non-empty text is supplied), the ended listener (lines 312-314) and
pauseAll (lines 443-447). -/
inductive OverlayOp
  | showQ (targetName question : String)
  | showR (text : String)
  | hide
  | playPreGen
  | playLive (text : String)
  | startStream (text : String)
  | audioEnded
  | pauseAll
  deriving DecidableEq, Repr

/-- Effect of each overlay-affecting operation on the overlay state. -/
def applyOverlayOp : OverlayOp → OverlayState → OverlayState
  | OverlayOp.showQ t q, s => showQuestion t q s
  | OverlayOp.showR t, s => showResponseText t s
  | OverlayOp.hide, s => hideOverlays s
  | OverlayOp.playPreGen, s => hideOverlays s
  | OverlayOp.playLive t, s =>
      if t = "" then hideOverlays s else showResponseText t (hideOverlays s)
  | OverlayOp.startStream t, s =>
      if t = "" then hideOverlays s else showResponseText t (hideOverlays s)
  | OverlayOp.audioEnded, s => hideOverlays s
  | OverlayOp.pauseAll, s => hideOverlays s

/-- State of the audience question form (src/unnamed/part_001): the two
input values, the error banner, and the submit button state. -/
structure FormState where
  nameValue : String
  questionValue : String
  errorVisible : Bool
  errorText : String
  submitDisabled : Bool
  submitLabel : String
  deriving DecidableEq, Repr

/-- Model of the JavaScript String.prototype.trim used by the form
handler: drop leading and trailing whitespace characters.  Defined by
structural recursion over the character list so that it evaluates inside
the kernel. -/
def jsTrim (s : String) : String :=
  String.mk
    (((s.data.dropWhile Char.isWhitespace).reverse.dropWhile Char.isWhitespace).reverse)

/-- An HTTP request issued by the question form. -/
structure SubmitRequest where
  url : String
  nameField : Option String
  questionField : String
  deriving DecidableEq, Repr

/-- The form submit handler, from src/unnamed/part_001 lines 25-48, up
to the point where the request is issued: trim both inputs; if the
question is empty show an error and issue no request; otherwise disable
the button, relabel it, hide the error, and POST to
/api/questions/submit with a blank name transmitted as null. -/
def formSubmit (s : FormState) : Option SubmitRequest × FormState :=
  let name := jsTrim s.nameValue
  let question := jsTrim s.questionValue
  if question = "" then
    (none, { s with errorVisible := true, errorText := "Please enter a question." })
  else
    (some { url := "/api/questions/submit",
            nameField := if name = "" then none else some name,
            questionField := question },
     { s with submitDisabled := true,
              submitLabel := "Submitting...",
              errorVisible := false })

/-- A sample normal command used by concrete executions. -/
def cmdNext : Command :=
  { type := "next", payload := [], timestamp := 0, priority := 0 }

/-- A second sample normal command used by concrete executions. -/
def cmdAsk : Command :=
  { type := "ask", payload := [("name", "Maria")], timestamp := 1, priority := 0 }

/-- Bookkeeping invariant of the command queue: completed commands,
then the in-flight command, then the pending FIFO, spell out the arrival
order; at most one command is in flight; and the busy flag tracks
whether a command is in flight. -/
def QueueInv (s : EngineState) : Prop :=
  s.done ++ s.inflight ++ s.queue = s.arrived
  ∧ s.inflight.length ≤ 1
  ∧ s.is_busy = !s.inflight.isEmpty

lemma queueInv_init : QueueInv initState := by
  refine ⟨rfl, by simp [initState], rfl⟩

lemma queueInv_process_next (s : EngineState)
    (h1 : s.done ++ s.inflight ++ s.queue = s.arrived)
    (h2 : s.inflight = []) (h3 : s.is_busy = false) :
    QueueInv (process_next s) := by
  cases hq : s.queue with
  | nil =>
      simp only [process_next, hq]
      exact ⟨h1, by simp [h2], by rw [h3, h2]; rfl⟩
  | cons c rest =>
      simp only [process_next, hq, execute]
      rw [h2] at h1
      rw [hq] at h1
      simp only [List.append_nil] at h1
      refine ⟨?_, by simp [h2], by simp [h2]⟩
      simp [h2, h1]

lemma queueInv_stepE (s : EngineState) (e : Event)
    (hn : normalEvent e = true) (h : QueueInv s) : QueueInv (stepE s e) := by
  obtain ⟨h1, h2, h3⟩ := h
  cases e with
  | enq cmd =>
      have hp : ¬ cmd.priority = 1 := by
        simp only [normalEvent, Nat.beq_eq_true_eq] at hn
        omega
      simp only [stepE, enqueue, if_neg hp]
      by_cases hb : s.is_busy = true
      · rw [if_pos hb]
        refine ⟨?_, h2, h3⟩
        rw [← h1]
        simp [List.append_assoc]
      · have hb2 : s.is_busy = false := by
          cases hbv : s.is_busy
          · rfl
          · exact absurd hbv hb
        have hinf : s.inflight = [] := by
          cases hi : s.inflight with
          | nil => rfl
          | cons a t =>
              rw [hi, hb2] at h3
              simp at h3
        rw [if_neg (by simp [hb2])]
        apply queueInv_process_next
        · show s.done ++ s.inflight ++ (s.queue ++ [cmd]) = s.arrived ++ [cmd]
          rw [← h1]
          simp [List.append_assoc]
        · exact hinf
        · exact hb2
  | complete =>
      by_cases hb : s.is_busy = true
      · simp only [stepE, if_pos hb, on_action_complete]
        obtain ⟨a, ha⟩ : ∃ a, s.inflight = [a] := by
          cases hi : s.inflight with
          | nil =>
              rw [hi, hb] at h3
              simp at h3
          | cons a t =>
              cases t with
              | nil => exact ⟨a, rfl⟩
              | cons b t2 =>
                  rw [hi] at h2
                  simp at h2
        apply queueInv_process_next
        · show s.done ++ s.inflight.take 1 ++ s.inflight.drop 1 ++ s.queue = s.arrived
          rw [ha] at h1 ⊢
          simpa using h1
        · simp [ha]
        · rfl
      · have hb2 : s.is_busy = false := by
          cases hbv : s.is_busy
          · rfl
          · exact absurd hbv hb
        simp only [stepE, hb2, Bool.false_eq_true, if_false]
        exact ⟨h1, h2, h3⟩

lemma queueInv_foldl (tr : List Event) :
    ∀ (s : EngineState), QueueInv s → (∀ e ∈ tr, normalEvent e = true) →
      QueueInv (tr.foldl stepE s) := by
  induction tr with
  | nil => intro s h _; exact h
  | cons e rest ih =>
      intro s h hn
      apply ih
      · exact queueInv_stepE s e (hn e (by simp)) h
      · intro e2 he2
        exact hn e2 (by simp [he2])

/-- Claim C1: for every sequence of NORMAL-priority commands submitted
via enqueue, the commands are executed in strict arrival (FIFO) order
relative to each other (completed commands, then the in-flight command,
then the still-pending FIFO, is exactly the arrival order), and at no
point of any reachable execution is more than one command in flight. -/
theorem normal_fifo_single_inflight (tr : List Event)
    (h : ∀ e ∈ tr, normalEvent e = true) :
    (run tr).done ++ (run tr).inflight ++ (run tr).queue = (run tr).arrived
    ∧ (run tr).inflight.length ≤ 1 := by
  have hinv := queueInv_foldl tr initState queueInv_init h
  exact ⟨hinv.1, hinv.2.1⟩

/-- Witness for normal_fifo_single_inflight on a concrete trace of two
normal commands and one completion. -/
theorem normal_fifo_single_inflight_witness :
    (∀ e ∈ [Event.enq cmdAsk, Event.enq cmdNext, Event.complete],
        normalEvent e = true)
    ∧ ((run [Event.enq cmdAsk, Event.enq cmdNext, Event.complete]).done
        ++ (run [Event.enq cmdAsk, Event.enq cmdNext, Event.complete]).inflight
        ++ (run [Event.enq cmdAsk, Event.enq cmdNext, Event.complete]).queue
        = (run [Event.enq cmdAsk, Event.enq cmdNext, Event.complete]).arrived
      ∧ (run [Event.enq cmdAsk, Event.enq cmdNext, Event.complete]).inflight.length ≤ 1) :=
  ⟨by decide, normal_fifo_single_inflight _ (by decide)⟩

/-- Claim C2, counterexample: the claimed invariant, is_busy true iff
current_action non-null, fails on the code.  on_action_complete
(src/PROJECT_GUIDE.md lines 359-361) sets is_busy to false and calls
process_next but never clears current_action, so after enqueueing one
normal command and receiving its completion signal the engine is not
busy while current_action still holds the finished command. -/
theorem busy_current_iff_counterexample :
    ¬ (((run [Event.enq cmdNext, Event.complete]).is_busy = true) ↔
        (run [Event.enq cmdNext, Event.complete]).current_action ≠ none) := by
  decide

lemma busy_current_process_next (s : EngineState)
    (h : s.is_busy = true → s.current_action.isSome = true) :
    (process_next s).is_busy = true → (process_next s).current_action.isSome = true := by
  cases hq : s.queue with
  | nil => simpa [process_next, hq] using h
  | cons c rest => simp [process_next, hq, execute]

lemma busy_current_stepE (s : EngineState) (e : Event)
    (h : s.is_busy = true → s.current_action.isSome = true) :
    (stepE s e).is_busy = true → (stepE s e).current_action.isSome = true := by
  cases e with
  | enq cmd =>
      by_cases hp : cmd.priority = 1
      · simp [stepE, enqueue, hp, interrupt]
      · simp only [stepE, enqueue, if_neg hp]
        by_cases hb : s.is_busy = true
        · rw [if_pos hb]
          intro _
          exact h hb
        · rw [if_neg (by simpa using hb)]
          apply busy_current_process_next
          intro hbt
          exact absurd hbt hb
  | complete =>
      by_cases hb : s.is_busy = true
      · simp only [stepE, if_pos hb, on_action_complete]
        apply busy_current_process_next
        intro hbt
        simp at hbt
      · have hb2 : s.is_busy = false := by
          cases hbv : s.is_busy
          · rfl
          · exact absurd hbv hb
        simp only [stepE, hb2, Bool.false_eq_true, if_false]
        exact fun hf => hf.elim

lemma busy_current_foldl (tr : List Event) :
    ∀ (s : EngineState),
      (s.is_busy = true → s.current_action.isSome = true) →
      ((tr.foldl stepE s).is_busy = true →
        (tr.foldl stepE s).current_action.isSome = true) := by
  induction tr with
  | nil => intro s h; exact h
  | cons e rest ih =>
      intro s h
      exact ih (stepE s e) (busy_current_stepE s e h)

/-- Claim C2, amended: in every reachable engine state, is_busy true
implies current_action is non-null.  The converse direction of the
claimed iff fails because on_action_complete (src/PROJECT_GUIDE.md lines
359-361) does not clear current_action, see
busy_current_iff_counterexample. -/
theorem busy_implies_current_reachable (tr : List Event)
    (h : (run tr).is_busy = true) :
    (run tr).current_action.isSome = true :=
  busy_current_foldl tr initState (by intro hb; simp [initState] at hb) h

/-- Witness for busy_implies_current_reachable on the concrete trace
that enqueues one normal command. -/
theorem busy_implies_current_reachable_witness :
    (run [Event.enq cmdNext]).is_busy = true
    ∧ (run [Event.enq cmdNext]).current_action.isSome = true :=
  ⟨by decide, busy_implies_current_reachable [Event.enq cmdNext] (by decide)⟩

/-- Claim C3: evaluation of the presenter client at the failing input.
When the pre-generated audio resource fails to load (for example the
file is missing and the server answers 404), the client sends the
audio_ended completion signal twice for the single command: once from
the catch handler of the rejected play promise (src/unnamed/part_000
lines 177-187) and once from the error listener on the audio element
(lines 191-198).  Only the successful path and the pure play-rejection
path send it exactly once.  This contradicts the exactly-once completion
contract of the specification. -/
theorem audio_ended_double_signal_on_load_error :
    audioEndedSignals AudioOutcome.loadError = 2
    ∧ audioEndedSignals AudioOutcome.playsToEnd = 1
    ∧ audioEndedSignals AudioOutcome.playRejected = 1 := by
  decide

/-- Claim C4, counterexample: after RESPONDING completes with an empty
FIFO, the router auto-advances to the next slide (src/PROJECT_GUIDE.md
line 334: response finishes, agent checks queue, empty, so auto-advances
to next slide), so the engine does advance the slide without any
explicit operator command, contrary to the claim. -/
theorem route_after_responding_counterexample :
    routeAfterComplete AgentState.RESPONDING 3 [] = (AgentState.PRESENTING, 4)
    ∧ (4 : Nat) ≠ 3 := by
  decide

/-- Claim C4, amended: when the FIFO is empty, a completed PRESENTING
state remains in PRESENTING on the same slide and a completed QA_MODE
state keeps waiting on the same slide, but a completed RESPONDING state
auto-advances to the next slide. -/
theorem route_empty_queue_amended (slide : Nat) :
    routeAfterComplete AgentState.PRESENTING slide [] = (AgentState.PRESENTING, slide)
    ∧ routeAfterComplete AgentState.QA_MODE slide [] = (AgentState.QA_MODE, slide)
    ∧ routeAfterComplete AgentState.RESPONDING slide [] = (AgentState.PRESENTING, slide + 1) := by
  exact ⟨rfl, rfl, rfl⟩

/-- Claim C5: goto with an index inside 0 <= N < totalSlides sets
currentSlide to exactly N and leaves the agent state unchanged; goto
with an index outside that range raises InvalidSlideIndex and leaves the
engine state unchanged. -/
theorem goto_slide_contract (s : EngineState) (n : Int) :
    (0 ≤ n ∧ n < (s.totalSlides : Int) →
      ((applyGoto s n).currentSlide : Int) = n
      ∧ (applyGoto s n).agentState = s.agentState)
    ∧ (¬ (0 ≤ n ∧ n < (s.totalSlides : Int)) →
      gotoSlide s n = Except.error SlideError.InvalidSlideIndex
      ∧ applyGoto s n = s) := by
  constructor
  · intro hin
    have hgoto : applyGoto s n = { s with currentSlide := n.toNat } := by
      simp [applyGoto, gotoSlide, if_pos hin]
    rw [hgoto]
    exact ⟨Int.toNat_of_nonneg hin.1, rfl⟩
  · intro hout
    have herr : gotoSlide s n = Except.error SlideError.InvalidSlideIndex := by
      simp [gotoSlide, if_neg hout]
    exact ⟨herr, by simp [applyGoto, herr]⟩

/-- Witness for goto_slide_contract: from the initial state with 15
slides, goto 5 lands on slide 5 without touching the agent state, and
goto 20 raises InvalidSlideIndex and leaves the state unchanged. -/
theorem goto_slide_contract_witness :
    (((applyGoto initState 5).currentSlide : Int) = 5
      ∧ (applyGoto initState 5).agentState = initState.agentState)
    ∧ (gotoSlide initState 20 = Except.error SlideError.InvalidSlideIndex
      ∧ applyGoto initState 20 = initState) :=
  ⟨(goto_slide_contract initState 5).1 (by decide),
   (goto_slide_contract initState 20).2 (by decide)⟩

/-- Claim C6: a pause interrupt issued while a command is in flight
moves the engine to PAUSED, records a non-null snapshot of the pre-pause
agent state and slide, leaves the normal-command FIFO unchanged (only a
stop interrupt clears it), and a subsequent resume restores exactly the
pre-pause agent state. -/
theorem pause_resume_contract (s : EngineState) (c : Command)
    (_h : s.current_action = some c) :
    (enqueue pauseCmd s).agentState = AgentState.PAUSED
    ∧ (enqueue pauseCmd s).savedStateOnPause
        = some { state := s.agentState, slide := s.currentSlide }
    ∧ (enqueue pauseCmd s).queue = s.queue
    ∧ (applyResume (enqueue pauseCmd s)).agentState = s.agentState := by
  have hq : (enqueue pauseCmd s) = interrupt pauseCmd s := by
    simp [enqueue, pauseCmd]
  rw [hq]
  have hns : ¬ (pauseCmd.type = "stop") := by decide
  refine ⟨rfl, rfl, ?_, ?_⟩
  · simp [interrupt, hns]
  · simp [applyResume, interrupt]

/-- Witness for pause_resume_contract: a concrete engine state in
RESPONDING on slide 3 with one command in flight and one queued. -/
theorem pause_resume_contract_witness :
    (enqueue pauseCmd
        { queue := [cmdNext], current_action := some cmdAsk, is_busy := true,
          agentState := AgentState.RESPONDING, currentSlide := 3, totalSlides := 15,
          savedStateOnPause := none, done := [], inflight := [cmdAsk],
          arrived := [cmdAsk, cmdNext] }).agentState = AgentState.PAUSED
    ∧ (enqueue pauseCmd
        { queue := [cmdNext], current_action := some cmdAsk, is_busy := true,
          agentState := AgentState.RESPONDING, currentSlide := 3, totalSlides := 15,
          savedStateOnPause := none, done := [], inflight := [cmdAsk],
          arrived := [cmdAsk, cmdNext] }).savedStateOnPause
        = some { state := AgentState.RESPONDING, slide := 3 }
    ∧ (enqueue pauseCmd
        { queue := [cmdNext], current_action := some cmdAsk, is_busy := true,
          agentState := AgentState.RESPONDING, currentSlide := 3, totalSlides := 15,
          savedStateOnPause := none, done := [], inflight := [cmdAsk],
          arrived := [cmdAsk, cmdNext] }).queue = [cmdNext]
    ∧ (applyResume (enqueue pauseCmd
        { queue := [cmdNext], current_action := some cmdAsk, is_busy := true,
          agentState := AgentState.RESPONDING, currentSlide := 3, totalSlides := 15,
          savedStateOnPause := none, done := [], inflight := [cmdAsk],
          arrived := [cmdAsk, cmdNext] })).agentState = AgentState.RESPONDING :=
  pause_resume_contract
    { queue := [cmdNext], current_action := some cmdAsk, is_busy := true,
      agentState := AgentState.RESPONDING, currentSlide := 3, totalSlides := 15,
      savedStateOnPause := none, done := [], inflight := [cmdAsk],
      arrived := [cmdAsk, cmdNext] } cmdAsk rfl

/-- Claim C7: the status query is idempotent and side-effect free.
Iterating it any number of times from any engine state returns the state
unchanged, so currentSlide, agentState and the queue contents are never
mutated. -/
theorem status_query_pure (n : Nat) (s : EngineState) :
    statusStep^[n] s = s
    ∧ (statusQuery s).2.currentSlide = s.currentSlide
    ∧ (statusQuery s).2.agentState = s.agentState
    ∧ (statusQuery s).2.queue = s.queue :=
  ⟨Function.iterate_fixed rfl n, rfl, rfl, rfl⟩

/-- Claim C8, counterexample: after a disconnect followed by a
reconnect, the client has sent nothing to the backend; in particular the
onopen handler (src/unnamed/part_000 lines 40-43) does not request a
status snapshot, contrary to the claim. -/
theorem reconnect_status_counterexample :
    (onOpen (onClose clientInit)).outbox = []
    ∧ ¬ ("status" ∈ (onOpen (onClose clientInit)).outbox) := by
  decide

/-- Claim C8, amended: after every transport disconnect the client
schedules a reconnect attempt after RECONNECT_DELAY milliseconds, and on
reconnect it only clears the pending timer: it sends no message to the
backend, so no fresh status snapshot is requested. -/
theorem reconnect_schedules_no_status (s : ClientState) :
    (onClose s).reconnectDelayMs = some RECONNECT_DELAY
    ∧ (onOpen (onClose s)).wsOpen = true
    ∧ (onOpen (onClose s)).outbox = s.outbox :=
  ⟨rfl, rfl, rfl⟩

/-- Claim C9: every overlay-affecting operation of the presenter screen
leaves at most one of the two overlays visible: after any operation the
question overlay is hidden or the response overlay is hidden. -/
theorem overlay_mutual_exclusion (op : OverlayOp) (s : OverlayState) :
    (applyOverlayOp op s).questionHidden = true
    ∨ (applyOverlayOp op s).responseHidden = true := by
  cases op with
  | showQ t q => exact Or.inr rfl
  | showR t => exact Or.inl rfl
  | hide => exact Or.inl rfl
  | playPreGen => exact Or.inl rfl
  | playLive t =>
      by_cases ht : t = ""
      · left
        simp [applyOverlayOp, ht, hideOverlays]
      · left
        simp [applyOverlayOp, ht, showResponseText, hideOverlays]
  | startStream t =>
      by_cases ht : t = ""
      · left
        simp [applyOverlayOp, ht, hideOverlays]
      · left
        simp [applyOverlayOp, ht, showResponseText, hideOverlays]
  | audioEnded => exact Or.inl rfl
  | pauseAll => exact Or.inl rfl

/-- Claim C10: if the question text is empty after trimming, the submit
handler issues no HTTP request, shows the error banner, and leaves every
other form field unchanged; if the question is non-empty, the handler
issues exactly one POST to /api/questions/submit carrying the trimmed
question, with a blank name transmitted as null. -/
theorem question_form_submit_contract (s : FormState) :
    (jsTrim s.questionValue = "" →
      (formSubmit s).1 = none
      ∧ (formSubmit s).2.errorVisible = true
      ∧ (formSubmit s).2.errorText = "Please enter a question."
      ∧ (formSubmit s).2.nameValue = s.nameValue
      ∧ (formSubmit s).2.questionValue = s.questionValue
      ∧ (formSubmit s).2.submitDisabled = s.submitDisabled
      ∧ (formSubmit s).2.submitLabel = s.submitLabel)
    ∧ (¬ jsTrim s.questionValue = "" →
      (formSubmit s).1
        = some { url := "/api/questions/submit",
                 nameField :=
                   if jsTrim s.nameValue = "" then none else some (jsTrim s.nameValue),
                 questionField := jsTrim s.questionValue }
      ∧ ∀ r, (formSubmit s).1 = some r →
          (jsTrim s.nameValue = "" → r.nameField = none)) := by
  constructor
  · intro hq
    have hs : formSubmit s
        = (none, { s with errorVisible := true,
                          errorText := "Please enter a question." }) := by
      simp [formSubmit, hq]
    rw [hs]
    exact ⟨rfl, rfl, rfl, rfl, rfl, rfl, rfl⟩
  · intro hq
    have hs : (formSubmit s).1
        = some { url := "/api/questions/submit",
                 nameField :=
                   if jsTrim s.nameValue = "" then none else some (jsTrim s.nameValue),
                 questionField := jsTrim s.questionValue } := by
      simp [formSubmit, hq]
    refine ⟨hs, ?_⟩
    intro r hr hname
    rw [hs] at hr
    rw [if_pos hname] at hr
    cases hr
    rfl

/-- Concrete form state with a whitespace-only question. -/
def formBlankQuestion : FormState :=
  { nameValue := "Bob", questionValue := "   ",
    errorVisible := false, errorText := "",
    submitDisabled := false, submitLabel := "Submit Question" }

/-- Concrete form state with a real question and a blank name. -/
def formBlankName : FormState :=
  { nameValue := " ", questionValue := " What is AI? ",
    errorVisible := false, errorText := "",
    submitDisabled := false, submitLabel := "Submit Question" }

/-- Witness for question_form_submit_contract: a whitespace-only
question issues no request and shows the error, and a non-empty question
with a blank name issues one request with a null name field. -/
theorem question_form_submit_contract_witness :
    ((formSubmit formBlankQuestion).1 = none
      ∧ (formSubmit formBlankQuestion).2.errorVisible = true)
    ∧ (formSubmit formBlankName).1
        = some { url := "/api/questions/submit",
                 nameField :=
                   if jsTrim formBlankName.nameValue = "" then none
                   else some (jsTrim formBlankName.nameValue),
                 questionField := jsTrim formBlankName.questionValue } :=
  ⟨⟨((question_form_submit_contract formBlankQuestion).1 (by decide)).1,
    ((question_form_submit_contract formBlankQuestion).1 (by decide)).2.1⟩,
   ((question_form_submit_contract formBlankName).2 (by decide)).1⟩

end AIPresenter






